import Mathlib

/-!
Verification of the trafai browser client (route/graph visualization and
cost-normalization pipeline). The definitions below are a shallow embedding
of the JavaScript/JSX source under `src/frontend`: numbers are modelled as
exact rationals together with the IEEE special values `NaN` and `±Infinity`
where the behaviour under division by zero matters, component render output
is modelled as explicit data, and a thrown `TypeError` is modelled with
`Except`.
-/

namespace Trafai

/-- JavaScript number model: an exact rational, or one of the IEEE special
values NaN, +Infinity, -Infinity. Used where division by zero or comparisons
with NaN decide behaviour. -/
inductive JSNum where
  | num (q : ℚ)
  | nan
  | posInf
  | negInf
deriving DecidableEq, Repr

namespace JSNum

/-- JavaScript division `a / b`, restricted to the value combinations the
client produces: a finite numerator divided by a finite denominator follows
IEEE semantics (`x/0` is `±Infinity` for `x ≠ 0` and `NaN` for `0/0`). -/
def jsDiv : JSNum → JSNum → JSNum
  | num a, num b =>
      if b = 0 then
        if 0 < a then posInf else if a < 0 then negInf else nan
      else num (a / b)
  | nan, _ => nan
  | _, nan => nan
  | posInf, num b => if 0 ≤ b then posInf else negInf
  | negInf, num b => if 0 ≤ b then negInf else posInf
  | num _, posInf => num 0
  | num _, negInf => num 0
  | _, _ => nan

/-- JavaScript multiplication, for the cases the client produces
(`Infinity * 100 = Infinity`, `NaN * x = NaN`). -/
def jsMul : JSNum → JSNum → JSNum
  | num a, num b => num (a * b)
  | nan, _ => nan
  | _, nan => nan
  | posInf, num b => if 0 < b then posInf else if b < 0 then negInf else nan
  | num a, posInf => if 0 < a then posInf else if a < 0 then negInf else nan
  | negInf, num b => if 0 < b then negInf else if b < 0 then posInf else nan
  | num a, negInf => if 0 < a then negInf else if a < 0 then posInf else nan
  | posInf, posInf => posInf
  | negInf, negInf => posInf
  | posInf, negInf => negInf
  | negInf, posInf => negInf

/-- JavaScript strict greater-than: any comparison with NaN is false. -/
def jsGt : JSNum → JSNum → Bool
  | num a, num b => decide (b < a)
  | nan, _ => false
  | _, nan => false
  | posInf, posInf => false
  | posInf, _ => true
  | _, posInf => false
  | negInf, _ => false
  | num _, negInf => true

/-- `Math.max` semantics: NaN is absorbing, otherwise the larger value. -/
def jsMax : JSNum → JSNum → JSNum
  | nan, _ => nan
  | _, nan => nan
  | posInf, _ => posInf
  | _, posInf => posInf
  | negInf, b => b
  | a, negInf => a
  | num a, num b => num (max a b)

/-- `Math.min` semantics: NaN is absorbing, otherwise the smaller value. -/
def jsMin : JSNum → JSNum → JSNum
  | nan, _ => nan
  | _, nan => nan
  | negInf, _ => negInf
  | _, negInf => negInf
  | posInf, b => b
  | a, posInf => a
  | num a, num b => num (min a b)

end JSNum

open JSNum

/-! StatsPanel embedding (`src/frontend/src/components/StatsPanel.jsx`). -/

/-- Stats fields of a route result as received from the server; every field
may be absent (`StatsPanel` destructures with `= 0` defaults). -/
structure StatsFields where
  total_cost : Option ℚ
  time_cost : Option ℚ
  congestion_penalty : Option ℚ
  emission_cost : Option ℚ
  social_cost : Option ℚ
  travel_time_hours : Option ℚ
deriving Repr

/-- The `data` prop of `StatsPanel`: `{ stats, path_nodes }`, each possibly
absent. -/
structure PanelData where
  stats : Option StatsFields
  path_nodes : Option (List String)
deriving Repr

/-- The helper defined at StatsPanel.jsx line 26:
`getPercent = (val) => Math.min(100, Math.max(5, (val / total_cost) * 100))`.
It is declared in the component but not referenced by the rendered bars. -/
def getPercent (val total : ℚ) : JSNum :=
  jsMin (num 100) (jsMax (num 5) (jsMul (jsDiv (num val) (num total)) (num 100)))

/-- The percentage actually rendered by `CostBar`
(StatsPanel.jsx line 65): `const percent = (value / total) * 100;` with no
clamping and no zero-total guard. -/
def costBarPercent (value total : ℚ) : JSNum :=
  jsMul (jsDiv (num value) (num total)) (num 100)

/-- The display-relevant output of one `StatsPanel` render: the travel-time
magnitude in minutes (shown via `toFixed(1)`), the displayed cost values, and
the four bar width percentages produced by `CostBar`. -/
structure PanelView where
  travelMinutes : ℚ
  totalCost : ℚ
  timeVal : ℚ
  congestionVal : ℚ
  emissionVal : ℚ
  socialVal : ℚ
  timeBar : JSNum
  congestionBar : JSNum
  emissionBar : JSNum
  socialBar : JSNum
deriving Repr

/-- Embedding of the `StatsPanel` component body: `null` when `data` is
absent, `null` when `stats` is absent, otherwise the rendered view with each
missing stats field defaulted to 0 by the destructuring and the four bars
computed by `CostBar` against `total_cost`. -/
def statsPanel (data : Option PanelData) : Option PanelView :=
  match data with
  | none => none
  | some d =>
    match d.stats with
    | none => none
    | some s =>
      let total := s.total_cost.getD 0
      let time := s.time_cost.getD 0
      let cong := s.congestion_penalty.getD 0
      let emis := s.emission_cost.getD 0
      let soc := s.social_cost.getD 0
      let tth := s.travel_time_hours.getD 0
      some {
        travelMinutes := tth * 60
        totalCost := total
        timeVal := time
        congestionVal := cong
        emissionVal := emis
        socialVal := soc
        timeBar := costBarPercent time total
        congestionBar := costBarPercent cong total
        emissionBar := costBarPercent emis total
        socialBar := costBarPercent soc total }

/-! MapComponent embedding (Leaflet variant and Google variant,
`src/frontend/src/components/MapComponent.jsx`). -/

/-- A graph node `{ id, x, y }` with grid coordinates. -/
structure Node where
  id : String
  x : ℚ
  y : ℚ
deriving DecidableEq, Repr

/-- A graph edge `{ source, target, capacity, current_flow }`. -/
structure Edge where
  source : String
  target : String
  capacity : ℚ
  current_flow : ℚ
deriving DecidableEq, Repr

/-- A graph snapshot `{ nodes, edges }`. -/
structure Graph where
  nodes : List Node
  edges : List Edge
deriving DecidableEq, Repr

/-- The `SCALE` constant (MapComponent.jsx line 26). -/
def SCALE : ℚ := 0.005

/-- Fixed anchor latitude of the synthetic grid (London, 51.505). -/
def centerLat : ℚ := 51.505

/-- Fixed anchor longitude of the synthetic grid (-0.09). -/
def centerLng : ℚ := -0.09

/-- `getLatLng(x, y)` (MapComponent.jsx lines 60-65): the deterministic
affine grid-to-geographic transform
`[centerLat + y * SCALE, centerLng + x * SCALE]`. -/
def getLatLng (x y : ℚ) : ℚ × ℚ :=
  (centerLat + y * SCALE, centerLng + x * SCALE)

/-- `getNodePos(id)` (MapComponent.jsx lines 67-70): find the node with the
given id in the current graph snapshot and project it; an id that matches no
node yields the literal fallback position `[0, 0]`. -/
def getNodePos (g : Graph) (nodeId : String) : ℚ × ℚ :=
  match g.nodes.find? (fun n => n.id == nodeId) with
  | some n => getLatLng n.x n.y
  | none => (0, 0)

/-- Rendered style of an edge polyline: stroke color and weight. -/
structure EdgeStyle where
  color : String
  weight : ℕ
deriving DecidableEq, Repr

/-- Baseline edge style (`#94a3b8`, weight 2). -/
def baselineStyle : EdgeStyle := ⟨"#94a3b8", 2⟩

/-- Intermediate edge style (`#f59e0b`, weight 3), applied when load > 0.5. -/
def orangeStyle : EdgeStyle := ⟨"#f59e0b", 3⟩

/-- Emphasized edge style (`#ef4444`, weight 4), applied when load > 0.8. -/
def redStyle : EdgeStyle := ⟨"#ef4444", 4⟩

/-- The edge color/weight policy of MapComponent.jsx lines 86-91 as a
function of the computed load:
`if (load > 0.8) red/4 else if (load > 0.5) orange/3 else baseline`. -/
def styleOfLoad (load : JSNum) : EdgeStyle :=
  if jsGt load (num 0.8) then redStyle
  else if jsGt load (num 0.5) then orangeStyle
  else baselineStyle

/-- `const load = edge.current_flow / edge.capacity;` under JavaScript
division semantics (no zero-capacity guard in the source). -/
def edgeLoad (e : Edge) : JSNum :=
  jsDiv (num e.current_flow) (num e.capacity)

/-- One rendered edge polyline: its two endpoint positions and its style. -/
structure RenderedEdge where
  startPos : ℚ × ℚ
  endPos : ℚ × ℚ
  style : EdgeStyle
deriving DecidableEq, Repr

/-- The edge-rendering loop (MapComponent.jsx lines 81-94):
`graph.edges.map(...)` returns a polyline for every edge, with no filtering
of any kind. -/
def renderEdges (g : Graph) : List RenderedEdge :=
  g.edges.map (fun e =>
    { startPos := getNodePos g e.source
      endPos := getNodePos g e.target
      style := styleOfLoad (edgeLoad e) })

/-- A route payload as both MapComponent variants receive it: `path` and
`geometry` are each possibly absent. -/
structure RouteData where
  path : Option (List String)
  geometry : Option (List (ℚ × ℚ))
deriving DecidableEq, Repr

/-- The legacy route polyline positions,
`routeData.path.map(nodeId => getNodePos(nodeId))` (MapComponent.jsx
line 111). -/
def renderLegacyPath (g : Graph) (p : List String) : List (ℚ × ℚ) :=
  p.map (getNodePos g)

/-- The Leaflet-variant route layer (MapComponent.jsx lines 109-114):
`routeData && <Polyline positions={routeData.path.map(...)} />`. When
`routeData` is present but has no `path` field, the member access
`routeData.path.map` throws a TypeError, modelled as `Except.error`. -/
def leafletRouteLayer (g : Graph) (rd : Option RouteData) :
    Except String (Option (List (ℚ × ℚ))) :=
  match rd with
  | none => Except.ok none
  | some r =>
    match r.path with
    | none => Except.error "TypeError: routeData.path is undefined"
    | some p => Except.ok (some (renderLegacyPath g p))

/-- The Google-variant route layer (MapComponent.jsx lines 220-250): build
`path` from `routeData.geometry` when it is a non-empty array, render the
polyline with start/end markers when `path` is non-empty, else render
nothing; the whole body is wrapped in try/catch and is total. -/
def googleRouteLayer (rd : Option RouteData) : Option (List (ℚ × ℚ)) :=
  match rd with
  | none => none
  | some r =>
    match r.geometry with
    | some geo => if 0 < geo.length then some geo else none
    | none => none

/-! Graph poll embedding (legacy App component, `fetchGraph`):
`api.get(...).then(res => setGraph(res.data)).catch(err => console.error(...))`. -/

/-- One poll tick: a successful response replaces the stored graph
wholesale; a failed response leaves it unchanged and only produces a console
log line. Returns the new stored graph and the optional log message. -/
def pollStep (current : Graph) (response : Except String Graph) :
    Graph × Option String :=
  match response with
  | Except.ok g => (g, none)
  | Except.error e => (current, some ("Failed to load graph " ++ e))

/-! ControlPanel error handling embedding (ControlPanel.jsx lines 37-44 and
the coordinate-mode handleRoute, MapComponent.jsx appendix lines 396-403). -/

/-- The user-visible error message derivation
`err.response?.data?.detail || err.message`: JavaScript `||` falls through
any falsy left operand, so an absent detail AND an empty-string detail both
select the raw transport message. -/
def errMsg (detail : Option String) (message : String) : String :=
  match detail with
  | some d => if d = "" then message else d
  | none => message

/-- Controller state relevant to a route request: the `loading` flag, the
published route slot (identified by the id of the request that produced it),
and the status line. -/
structure CtrlState where
  loading : Bool
  route : Option ℕ
  statusMsg : String
deriving DecidableEq, Repr

/-- Outcome of an awaited route request: success with a result, or failure
carrying the optional structured server `detail` and the raw transport
error message. -/
inductive RouteOutcome where
  | ok (result : ℕ)
  | err (detail : Option String) (message : String)
deriving DecidableEq, Repr

/-- The tail of `handleRoute`: on success call `onRouteComputed` (replacing
the route slot) and set the success status; on error leave the route slot
untouched, set the error status, and show the derived message; in both cases
`finally` clears `loading`. Returns the new state and the alert message
shown, if any. -/
def finishRoute (s : CtrlState) : RouteOutcome → CtrlState × Option String
  | RouteOutcome.ok r =>
      ({ loading := false, route := some r, statusMsg := "Route computed!" },
       none)
  | RouteOutcome.err d m =>
      ({ loading := false, route := s.route, statusMsg := "Error occurred." },
       some (errMsg d m))

/-! Route-request interleaving model. The only way to issue a route request
is the Compute Route button, and it is rendered with
`disabled={loading || !startLocation || !endLocation}`
(MapComponent.jsx appendix lines 448-456); `handleRoute` sets
`loading = true` before awaiting and the `finally` clause clears it when the
request settles. Requests are numbered by issue order. -/

/-- State of the route-request machinery: the `loading` flag, the request
currently in flight (if any), the request whose result the route slot
currently holds, the most recently issued request, and the next request
number. -/
structure RaceState where
  loading : Bool
  inflight : Option ℕ
  applied : Option ℕ
  lastIssued : Option ℕ
  nextId : ℕ
deriving DecidableEq, Repr

/-- Initial state: nothing loading, nothing in flight, no route applied. -/
def initRace : RaceState :=
  { loading := false, inflight := none, applied := none,
    lastIssued := none, nextId := 0 }

/-- Event-level semantics of the route request lifecycle. `issue` is a click
on the Compute Route button: possible only while the button is enabled,
i.e. `loading = false`; it starts a new request. `resolve` is the completion
callback of the in-flight request: it publishes the result of that request via
`onRouteComputed` and clears `loading`. -/
inductive RaceStep : RaceState → RaceState → Prop where
  | issue (s : RaceState) (h : s.loading = false) :
      RaceStep s
        { loading := true, inflight := some s.nextId, applied := s.applied,
          lastIssued := some s.nextId, nextId := s.nextId + 1 }
  | resolve (s : RaceState) (rid : ℕ) (h : s.inflight = some rid) :
      RaceStep s
        { loading := false, inflight := none, applied := some rid,
          lastIssued := s.lastIssued, nextId := s.nextId }

/-- States reachable from `initRace` by any interleaving of clicks and
completions. -/
inductive RaceReach : RaceState → Prop where
  | init : RaceReach initRace
  | step {s t : RaceState} : RaceReach s → RaceStep s t → RaceReach t

/-- Invariant of the request machinery: `loading` tracks exactly whether a
request is in flight, the in-flight request (when there is one) is always
the most recently issued one, and in quiescent states the route slot holds
the result of the most recently issued request. -/
theorem raceInv (s : RaceState) (hs : RaceReach s) :
    s.inflight.isSome = s.loading ∧
    (∀ rid, s.inflight = some rid → s.lastIssued = some rid) ∧
    (s.inflight = none → s.applied = s.lastIssued) := by
  induction hs with
  | init => exact ⟨rfl, fun rid h => by simp [initRace] at h, fun _ => rfl⟩
  | step hr hstep ih =>
    cases hstep with
    | issue h =>
      refine ⟨rfl, fun rid hr2 => ?_, fun hnone => by simp at hnone⟩
      simpa using hr2
    | resolve rid h =>
      refine ⟨rfl, fun r hr2 => by simp at hr2, fun _ => ?_⟩
      simpa using (ih.2.1 rid h).symm

/-! Theorems settling the claims. -/

/-- Componentwise subtraction of lat/lng pairs. -/
def psub (p q : ℚ × ℚ) : ℚ × ℚ := (p.1 - q.1, p.2 - q.2)

/-- Componentwise addition of lat/lng pairs. -/
def padd (p q : ℚ × ℚ) : ℚ × ℚ := (p.1 + q.1, p.2 + q.2)

/-- C8: the projection is deterministic and affine. For the fixed center and
SCALE, `getLatLng x y = (centerLat + y * SCALE, centerLng + x * SCALE)` with
`SCALE = 0.005`, and the displacement from `getLatLng 0 0` is additive in the
grid coordinates. -/
theorem c8_project_affine :
    SCALE = (0.005 : ℚ) ∧
    (∀ x y : ℚ,
      getLatLng x y = (centerLat + y * SCALE, centerLng + x * SCALE)) ∧
    (∀ x1 y1 x2 y2 : ℚ,
      psub (getLatLng (x1 + x2) (y1 + y2)) (getLatLng 0 0) =
        padd (psub (getLatLng x1 y1) (getLatLng 0 0))
          (psub (getLatLng x2 y2) (getLatLng 0 0))) := by
  refine ⟨rfl, fun x y => rfl, fun x1 y1 x2 y2 => ?_⟩
  simp only [getLatLng, psub, padd, Prod.mk.injEq]
  constructor <;> ring

/-- C9: a failed layout poll leaves the stored graph unchanged and only
produces a log message; a successful poll replaces the stored graph
wholesale with the response, regardless of the previous snapshot. -/
theorem c9_poll_resilience (current g : Graph) (e : String) :
    (pollStep current (Except.error e)).1 = current ∧
    (pollStep current (Except.error e)).2 =
      some ("Failed to load graph " ++ e) ∧
    (pollStep current (Except.ok g)).1 = g ∧
    (pollStep current (Except.ok g)).2 = none :=
  ⟨rfl, rfl, rfl, rfl⟩

/-- C7: the rendered style of every edge is the pure function
`styleOfLoad` of its load `current_flow / capacity`, and on finite loads
that function yields the emphasized style for load > 0.8, the intermediate
style for load in (0.5, 0.8], and the baseline style otherwise. -/
theorem c7_edge_style (l : ℚ) :
    (∀ g : Graph, (renderEdges g).map (fun r => r.style) =
      g.edges.map (fun e => styleOfLoad (edgeLoad e))) ∧
    ((0.8 : ℚ) < l → styleOfLoad (num l) = redStyle) ∧
    ((0.5 : ℚ) < l → l ≤ 0.8 → styleOfLoad (num l) = orangeStyle) ∧
    (l ≤ (0.5 : ℚ) → styleOfLoad (num l) = baselineStyle) := by
  refine ⟨fun g => ?_, fun h => ?_, fun h1 h2 => ?_, fun h => ?_⟩
  · simp [renderEdges, List.map_map]
  · simp [styleOfLoad, jsGt, h]
  · simp [styleOfLoad, jsGt, h1, not_lt.2 h2]
  · have h1 : ¬ ((0.8 : ℚ) < l) := not_lt.2 (h.trans (by norm_num))
    simp [styleOfLoad, jsGt, h1, not_lt.2 h]

/-- Witness for C7 at concrete loads 0.9, 0.6 and 0.2. -/
theorem c7_edge_style_witness :
    styleOfLoad (num 0.9) = redStyle ∧
    styleOfLoad (num 0.6) = orangeStyle ∧
    styleOfLoad (num 0.2) = baselineStyle :=
  ⟨(c7_edge_style 0.9).2.1 (by norm_num),
   (c7_edge_style 0.6).2.2.1 (by norm_num) (by norm_num),
   (c7_edge_style 0.2).2.2.2 (by norm_num)⟩

/-- An edge with capacity 0 and positive flow, as sent by a degenerate
snapshot. -/
def capZeroEdge : Edge := ⟨"a", "b", 0, 1⟩

/-- A one-edge graph whose only edge has capacity 0. -/
def capZeroGraph : Graph := ⟨[], [capZeroEdge]⟩

/-- C5 counterexample: the rendering loop does not skip a capacity-0 edge.
The one-edge graph with a capacity-0 edge still renders one polyline (the
load evaluates to Infinity under JavaScript division and selects the
emphasized style). -/
theorem c5_counterexample :
    renderEdges capZeroGraph =
      [{ startPos := (0, 0), endPos := (0, 0), style := redStyle }] ∧
    (renderEdges capZeroGraph).length ≠ 0 := by
  constructor <;> decide

/-- C5 amended: no edge is ever skipped (the rendered list always has one
polyline per edge); for an edge with capacity 0 the load is computed anyway
under JavaScript division semantics, evaluating to Infinity for positive
flow (rendered with the emphasized style), -Infinity for negative flow and
NaN for zero flow (both rendered with the baseline style); no crash
occurs. -/
theorem c5_cap_zero_not_skipped (e : Edge) (g : Graph)
    (h : e.capacity = 0) :
    (renderEdges g).length = g.edges.length ∧
    edgeLoad e = (if 0 < e.current_flow then JSNum.posInf
      else if e.current_flow < 0 then JSNum.negInf else JSNum.nan) ∧
    styleOfLoad (edgeLoad e) =
      (if 0 < e.current_flow then redStyle else baselineStyle) := by
  have hload : edgeLoad e = (if 0 < e.current_flow then JSNum.posInf
      else if e.current_flow < 0 then JSNum.negInf else JSNum.nan) := by
    simp [edgeLoad, jsDiv, h]
  refine ⟨by simp [renderEdges], hload, ?_⟩
  rw [hload]
  by_cases hp : 0 < e.current_flow
  · simp [hp, styleOfLoad, jsGt]
  · by_cases hn : e.current_flow < 0 <;>
      simp [hp, hn, styleOfLoad, jsGt]

/-- Witness for C5 (amended) at the concrete capacity-0 edge. -/
theorem c5_cap_zero_not_skipped_witness :
    (renderEdges capZeroGraph).length = 1 ∧
    styleOfLoad (edgeLoad capZeroEdge) = redStyle := by
  have h := c5_cap_zero_not_skipped capZeroEdge capZeroGraph rfl
  refine ⟨h.1.trans rfl, ?_⟩
  rw [h.2.2]
  norm_num [capZeroEdge]

/-- C4 counterexample: an id that matches no node in the current graph
snapshot is not skipped; `getNodePos` emits the fallback position `[0, 0]`
for it, so the legacy route polyline for an unresolvable id has one
position, not zero. -/
theorem c4_counterexample :
    renderLegacyPath ⟨[], []⟩ ["n1"] = [((0 : ℚ), (0 : ℚ))] ∧
    renderLegacyPath ⟨[], []⟩ ["n1"] ≠ [] := by
  constructor <;> decide

/-- C4 amended: when rendering a legacy route given as a list of node ids,
every id that resolves to a node of the current snapshot is mapped to the
projected position of that node, and an id that matches no node is not
skipped but yields the literal fallback position `[0, 0]`; the polyline has
exactly one position per id. -/
theorem c4_legacy_route_positions (g : Graph) (nid : String) :
    (∀ n, g.nodes.find? (fun m => m.id == nid) = some n →
      getNodePos g nid = getLatLng n.x n.y) ∧
    (g.nodes.find? (fun m => m.id == nid) = none →
      getNodePos g nid = (0, 0)) ∧
    (∀ p, renderLegacyPath g p = p.map (getNodePos g)) :=
  ⟨fun n h => by simp [getNodePos, h],
   fun h => by simp [getNodePos, h],
   fun p => rfl⟩

/-- Witness for C4 (amended) on a one-node graph: the id "a" resolves to
the projected node position, the id "b" yields the fallback. -/
theorem c4_legacy_route_positions_witness :
    getNodePos ⟨[⟨"a", 1, 2⟩], []⟩ "a" = getLatLng 1 2 ∧
    getNodePos ⟨[⟨"a", 1, 2⟩], []⟩ "b" = (0, 0) :=
  ⟨(c4_legacy_route_positions ⟨[⟨"a", 1, 2⟩], []⟩ "a").1 ⟨"a", 1, 2⟩
      (by decide),
   (c4_legacy_route_positions ⟨[⟨"a", 1, 2⟩], []⟩ "b").2.1 (by decide)⟩

/-- C1 counterexample: the percentage actually rendered for a bar is NOT
`min(100, max(5, v/t*100))`, and a zero total does NOT yield 0. With
`total_cost = 100` and a component value 150 the rendered width is 150
(outside [5, 100], while the claimed formula, which is the unused helper
`getPercent`, gives 100); with `total_cost = 0` the rendered width is
Infinity for value 1 and NaN for value 0, not 0. -/
theorem c1_counterexample :
    costBarPercent 150 100 = num 150 ∧
    getPercent 150 100 = num 100 ∧
    costBarPercent 150 100 ≠ getPercent 150 100 ∧
    costBarPercent 1 0 = JSNum.posInf ∧
    costBarPercent 0 0 = JSNum.nan ∧
    JSNum.posInf ≠ num 0 := by
  have h1 : costBarPercent 150 100 = num 150 := by
    norm_num [costBarPercent, jsDiv, jsMul]
  have h2 : getPercent 150 100 = num 100 := by
    norm_num [getPercent, jsDiv, jsMul, jsMin, jsMax, max_def, min_def]
  refine ⟨h1, h2, ?_, ?_, ?_, ?_⟩
  · rw [h1, h2]
    simp only [ne_eq, JSNum.num.injEq]
    norm_num
  · norm_num [costBarPercent, jsDiv, jsMul]
  · norm_num [costBarPercent, jsDiv, jsMul]
  · simp

/-- C1 amended: the displayed bar percentage is the unclamped value
`(v / t) * 100`; for a zero total it is Infinity (v > 0), -Infinity
(v < 0) or NaN (v = 0) rather than 0, so the four bar widths are neither
confined to [5, 100] nor bounded by 400 in sum. The formula of the claim,
`min(100, max(5, (v / t) * 100))`, is exactly the helper `getPercent`
declared in the component, which the rendered bars never call. -/
theorem c1_bar_percent_unclamped (v t : ℚ) :
    (t ≠ 0 → costBarPercent v t = num (v / t * 100)) ∧
    (0 < v → costBarPercent v 0 = JSNum.posInf) ∧
    (v < 0 → costBarPercent v 0 = JSNum.negInf) ∧
    (costBarPercent 0 0 = JSNum.nan) ∧
    (getPercent v t = jsMin (num 100) (jsMax (num 5) (costBarPercent v t))) := by
  refine ⟨fun h => ?_, fun h => ?_, fun h => ?_,
    by norm_num [costBarPercent, jsDiv, jsMul], rfl⟩
  · norm_num [costBarPercent, jsDiv, jsMul, h]
  · norm_num [costBarPercent, jsDiv, jsMul, h]
  · have hnp : ¬ (0 < v) := not_lt.2 h.le
    norm_num [costBarPercent, jsDiv, jsMul, h, hnp]

/-- Witness for C1 (amended) at concrete values. -/
theorem c1_bar_percent_unclamped_witness :
    costBarPercent 150 100 = num (150 / 100 * 100) ∧
    costBarPercent 2 0 = JSNum.posInf ∧
    costBarPercent (-2) 0 = JSNum.negInf :=
  ⟨(c1_bar_percent_unclamped 150 100).1 (by norm_num),
   (c1_bar_percent_unclamped 2 0).2.1 (by norm_num),
   (c1_bar_percent_unclamped (-2) 0).2.2.1 (by norm_num)⟩

/-- C2 counterexample: a route payload that is missing `geometry` (and has
no `path` field either) crashes the Leaflet-variant MapComponent: the
unguarded member access `routeData.path.map` throws a TypeError instead of
rendering the graph and base map only. -/
theorem c2_counterexample :
    leafletRouteLayer ⟨[], []⟩ (some ⟨none, none⟩) =
      Except.error "TypeError: routeData.path is undefined" := rfl

/-- C2 amended: the Google-variant MapComponent never crashes on a
partially malformed payload — with `geometry` missing or empty it renders
no route layer (graph and base map only); the Leaflet variant tolerates an
empty `path` (rendering an empty polyline) and any present `path`, but a
payload whose `path` field is absent throws a TypeError in the Leaflet
variant (in the Google-mode App this is contained by an ErrorBoundary
around MapComponent, not by MapComponent itself). -/
theorem c2_malformed_route_payload (g : Graph) (rd : RouteData) :
    (rd.geometry = none → googleRouteLayer (some rd) = none) ∧
    (rd.geometry = some [] → googleRouteLayer (some rd) = none) ∧
    (∀ pth, rd.path = some pth →
      leafletRouteLayer g (some rd) =
        Except.ok (some (renderLegacyPath g pth))) ∧
    (rd.path = none →
      leafletRouteLayer g (some rd) =
        Except.error "TypeError: routeData.path is undefined") := by
  obtain ⟨pf, gf⟩ := rd
  refine ⟨fun h => ?_, fun h => ?_, fun pth h => ?_, fun h => ?_⟩ <;>
    (simp only at h; subst h) <;> rfl

/-- Witness for C2 (amended) at concrete payloads. -/
theorem c2_malformed_route_payload_witness :
    googleRouteLayer (some ⟨some ["a"], none⟩) = none ∧
    leafletRouteLayer ⟨[], []⟩ (some ⟨some [], some []⟩) =
      Except.ok (some []) ∧
    leafletRouteLayer ⟨[], []⟩ (some ⟨none, some [(1, 2)]⟩) =
      Except.error "TypeError: routeData.path is undefined" :=
  ⟨(c2_malformed_route_payload ⟨[], []⟩ ⟨some ["a"], none⟩).1 rfl,
   (c2_malformed_route_payload ⟨[], []⟩ ⟨some [], some []⟩).2.2.1 [] rfl,
   (c2_malformed_route_payload ⟨[], []⟩ ⟨none, some [(1, 2)]⟩).2.2.2 rfl⟩

/-- C6 counterexample: when the server sends a present but empty structured
detail, the derived user-visible message is the raw transport message, not
the detail — JavaScript `||` falls through the empty string. -/
theorem c6_counterexample :
    errMsg (some "") "Network Error" = "Network Error" ∧
    errMsg (some "") "Network Error" ≠ "" := by
  exact ⟨rfl, by decide⟩

/-- C6 amended: on a failed route request the handler clears `loading`
(returning the lifecycle to idle so the retry button is enabled again),
leaves the previously displayed route slot unchanged, and shows a message
derived as the structured server detail when it is present AND non-empty,
falling back to the raw transport error message when the detail is absent
or empty. -/
theorem c6_route_error_handling (s : CtrlState) (d : Option String)
    (m : String) :
    (finishRoute s (RouteOutcome.err d m)).1.loading = false ∧
    (finishRoute s (RouteOutcome.err d m)).1.route = s.route ∧
    (finishRoute s (RouteOutcome.err d m)).2 = some (errMsg d m) ∧
    (∀ dd, d = some dd → dd ≠ "" → errMsg d m = dd) ∧
    ((d = none ∨ d = some "") → errMsg d m = m) := by
  refine ⟨rfl, rfl, rfl, ?_, ?_⟩
  · rintro dd rfl h
    simp [errMsg, h]
  · rintro (rfl | rfl) <;> simp [errMsg]

/-- Witness for C6 (amended) at a concrete failing request with detail
"no path found". -/
theorem c6_route_error_handling_witness :
    (finishRoute ⟨true, some 0, ""⟩
      (RouteOutcome.err (some "no path found") "Request failed")).1.loading
      = false ∧
    (finishRoute ⟨true, some 0, ""⟩
      (RouteOutcome.err (some "no path found") "Request failed")).1.route
      = some 0 ∧
    errMsg (some "no path found") "Request failed" = "no path found" :=
  ⟨(c6_route_error_handling ⟨true, some 0, ""⟩ (some "no path found")
      "Request failed").1,
   (c6_route_error_handling ⟨true, some 0, ""⟩ (some "no path found")
      "Request failed").2.1,
   (c6_route_error_handling ⟨true, some 0, ""⟩ (some "no path found")
      "Request failed").2.2.2.1 "no path found" rfl (by decide)⟩

/-- C10: StatsPanel tolerates incomplete stats: it renders nothing when
`data` is absent or when `stats` is absent, and when `stats` is present it
renders a view where every missing cost field is treated as 0; in
particular a missing `travel_time_hours` yields a travel-time magnitude of
0 minutes, displayed as "0.0 min" by the one-decimal formatting. -/
theorem c10_stats_panel_defaults :
    (statsPanel none = none) ∧
    (∀ d : PanelData, d.stats = none → statsPanel (some d) = none) ∧
    (∀ (d : PanelData) (s : StatsFields), d.stats = some s →
      statsPanel (some d) =
        some { travelMinutes := s.travel_time_hours.getD 0 * 60
               totalCost := s.total_cost.getD 0
               timeVal := s.time_cost.getD 0
               congestionVal := s.congestion_penalty.getD 0
               emissionVal := s.emission_cost.getD 0
               socialVal := s.social_cost.getD 0
               timeBar := costBarPercent (s.time_cost.getD 0)
                 (s.total_cost.getD 0)
               congestionBar := costBarPercent (s.congestion_penalty.getD 0)
                 (s.total_cost.getD 0)
               emissionBar := costBarPercent (s.emission_cost.getD 0)
                 (s.total_cost.getD 0)
               socialBar := costBarPercent (s.social_cost.getD 0)
                 (s.total_cost.getD 0) } ∧
      (s.travel_time_hours = none →
        (statsPanel (some d)).map (fun v => v.travelMinutes) = some 0) ∧
      (s.time_cost = none →
        (statsPanel (some d)).map (fun v => v.timeVal) = some 0)) := by
  refine ⟨rfl, fun d h => by simp [statsPanel, h], fun d s h => ?_⟩
  refine ⟨by simp [statsPanel, h], fun hm => ?_, fun hm => ?_⟩ <;>
    simp [statsPanel, h, hm]

/-- Witness for C10 at a stats object with every field absent. -/
theorem c10_stats_panel_defaults_witness :
    statsPanel (some ⟨none, none⟩) = none ∧
    (statsPanel (some ⟨some ⟨none, none, none, none, none, none⟩, none⟩)).map
      (fun v => v.travelMinutes) = some 0 :=
  ⟨c10_stats_panel_defaults.2.1 ⟨none, none⟩ rfl,
   (c10_stats_panel_defaults.2.2
      ⟨some ⟨none, none, none, none, none, none⟩, none⟩
      ⟨none, none, none, none, none, none⟩ rfl).2.1 rfl⟩

/-- C3: stale-response suppression holds because the request machinery is
serialized. In every reachable state of the route-request model, `loading`
is set exactly while a request is in flight (so the Compute Route button is
disabled and no second request can be issued before the first resolves),
the in-flight request is always the most recently issued one, and whenever
no request is pending the route slot holds the result of the most recently
issued request — never an earlier one. -/
theorem c3_stale_response_suppression (s : RaceState) (hs : RaceReach s) :
    s.inflight.isSome = s.loading ∧
    (∀ rid, s.inflight = some rid → s.lastIssued = some rid) ∧
    (s.inflight = none → s.applied = s.lastIssued) :=
  raceInv s hs

/-- Witness for C3: the state reached by issue, resolve, issue, resolve has
its route slot equal to the result of request 1, the most recently issued
request. -/
theorem c3_stale_response_suppression_witness :
    (RaceState.mk false none (some 1) (some 1) 2).applied =
      (RaceState.mk false none (some 1) (some 1) 2).lastIssued := by
  have h0 : RaceReach initRace := RaceReach.init
  have h1 : RaceReach ⟨true, some 0, none, some 0, 1⟩ :=
    RaceReach.step h0 (RaceStep.issue initRace rfl)
  have h2 : RaceReach ⟨false, none, some 0, some 0, 1⟩ :=
    RaceReach.step h1 (RaceStep.resolve _ 0 rfl)
  have h3 : RaceReach ⟨true, some 1, some 0, some 1, 2⟩ :=
    RaceReach.step h2 (RaceStep.issue _ rfl)
  have h4 : RaceReach ⟨false, none, some 1, some 1, 2⟩ :=
    RaceReach.step h3 (RaceStep.resolve _ 1 rfl)
  exact (c3_stale_response_suppression _ h4).2.2 rfl

end Trafai
